import Mathlib

/-!
Verification development for the meeting-intelligence recording and
processing application.  The definitions below are a shallow embedding of
the TypeScript sources:

* `AudioRecordingService` (recording session controller: `startRecording`,
  `stopRecording`, the one-second status interval with its 70/90 minute
  time warnings);
* `TranscriptionService.simulateSpeakerDiarization` (the heuristic speaker
  count estimator);
* `ProcessingWorkflow` (the transcription → speaker naming → analysis →
  persistence pipeline) and the `SpeakerIdentification` component's
  name-confirmation logic.

JavaScript numbers are modelled as `Nat`/`ℚ`, JS `string.split(regex)` by
an explicit run-splitting function with the same empty-piece behaviour,
and external calls (OpenAI, database, file deletion) by explicit outcome
parameters (`Except`).
-/

/-! ### JavaScript string splitting

`s.split(/\s+/)` and `s.split(/[.!?]+/)` split on maximal runs of
separator characters and keep the (possibly empty) pieces before the
first run, between runs, and after the last run.  In particular
`"".split(/\s+/) = [""]`, `".a.".split(/[.!?]+/) = ["", "a", ""]`. -/

def jsSplitRunsGo (p : Char → Bool) : List Char → Bool → String → List String
  | [], _, cur => [cur]
  | c :: cs, inSep, cur =>
    if p c then
      if inSep then jsSplitRunsGo p cs true cur
      else cur :: jsSplitRunsGo p cs true ""
    else jsSplitRunsGo p cs false (cur.push c)

/-- JS `String.prototype.split` against a regex matching nonempty runs of
characters satisfying `p`: a fresh piece is emitted at the start of every
separator run, and the remainder (possibly empty) is emitted at the end. -/
def jsSplitRuns (p : Char → Bool) (s : String) : List String :=
  jsSplitRunsGo p s.data false ""

/-- `transcript.split(/\s+/)` — the whitespace tokenisation used for
`totalWords` and per-sentence word counts. -/
def jsSplitWhitespace (s : String) : List String :=
  jsSplitRuns Char.isWhitespace s

/-- JS `String.prototype.toLowerCase` (character-wise lowering). -/
def jsToLower (s : String) : String :=
  String.mk (s.data.map Char.toLower)

/-- JS `String.prototype.trim`: strip whitespace from both ends. -/
def jsTrim (s : String) : String :=
  String.mk (((s.data.dropWhile Char.isWhitespace).reverse.dropWhile
    Char.isWhitespace).reverse)

def jsSplitCharGo (sep : Char) : List Char → String → List String
  | [], cur => [cur]
  | c :: cs, cur =>
    if c = sep then cur :: jsSplitCharGo sep cs ""
    else jsSplitCharGo sep cs (cur.push c)

/-- JS `String.prototype.split` with a one-character string separator:
every occurrence separates, so adjacent separators yield empty pieces. -/
def jsSplitChar (sep : Char) (s : String) : List String :=
  jsSplitCharGo sep s.data ""

/-- The sentence delimiters of `transcript.split(/[.!?]+/)`. -/
def isSentenceDelim (c : Char) : Bool :=
  c = '.' || c = '!' || c = '?'

/-! ### Speaker count estimator
(`TranscriptionService.simulateSpeakerDiarization`) -/

/-- `conversationIndicators` word list from the source. -/
def conversationIndicators : List String :=
  ["yes", "no", "okay", "right", "exactly", "sure", "definitely",
   "question", "answer", "think", "believe", "agree", "disagree"]

/-- `addressPatterns` word list from the source. -/
def addressPatterns : List String :=
  ["you", "your", "we", "us", "our"]

/-- `const words = transcript.toLowerCase().split(/\s+/)`. -/
def wordsOf (transcript : String) : List String :=
  jsSplitWhitespace (jsToLower transcript)

/-- `const totalWords = words.length`. -/
def totalWords (transcript : String) : Nat :=
  (wordsOf transcript).length

/-- `indicatorCount`: tokens that are conversation indicators or address
patterns. -/
def indicatorCount (transcript : String) : Nat :=
  ((wordsOf transcript).filter
    (fun w => conversationIndicators.contains w || addressPatterns.contains w)).length

/-- `const indicatorRatio = indicatorCount / totalWords` (JS float
division, modelled in `ℚ`). -/
def indicatorRatio (transcript : String) : ℚ :=
  (indicatorCount transcript : ℚ) / (totalWords transcript : ℚ)

/-- `transcript.split(/[.!?]+/).filter(s => s.trim().length > 10)` — the
(untrimmed) sentence pieces whose trimmed length exceeds 10. -/
def sentencesOf (transcript : String) : List String :=
  (jsSplitRuns isSentenceDelim transcript).filter (fun s => 10 < (jsTrim s).length)

/-- `shortSentences`: kept sentences with fewer than 15 whitespace-split
tokens (the token list of the untrimmed piece, as in the source). -/
def shortSentenceCount (transcript : String) : Nat :=
  ((sentencesOf transcript).filter
    (fun s => (jsSplitWhitespace s).length < 15)).length

/-- The value of `numSpeakers` right after the indicator-ratio branch and
before the sentence-pattern adjustment (source literals `0.15`, `0.08`). -/
def baseSpeakerEstimate (transcript : String) : Nat :=
  if 100 < totalWords transcript then
    if (15 : ℚ) / 100 < indicatorRatio transcript then 3
    else if (8 : ℚ) / 100 < indicatorRatio transcript then 2
    else 1
  else 1

/-- `numSpeakers` after the short-sentence dialogue adjustment and the
`Math.min(numSpeakers, 4)` cap. -/
def numSpeakersOf (transcript : String) : Nat :=
  let base := baseSpeakerEstimate transcript
  let adjusted :=
    if 100 < totalWords transcript then
      if 5 < (sentencesOf transcript).length then
        if (6 : ℚ) / 10 <
            (shortSentenceCount transcript : ℚ) / ((sentencesOf transcript).length : ℚ) then
          Nat.max base 2
        else base
      else base
    else base
  Nat.min adjusted 4

/-- `Speaker` from `src/shared/types.ts`.  `confidence` is a JS float,
modelled in `ℚ`. -/
structure Speaker where
  id : String
  name : String
  confidence : ℚ
  sampleAudio : String
deriving DecidableEq, Repr

/-- The `speakers.push({...})` loop of `simulateSpeakerDiarization`.
`confidences i` models `0.75 + Math.random() * 0.2` (display-only jitter)
and `audioSnippets` the result of `extractAudioSnippets` (file I/O);
`audioSnippets[i] || ''` becomes `getD i ""`. -/
def mkSpeakers (numSpeakers : Nat) (confidences : Nat → ℚ)
    (audioSnippets : List String) : List Speaker :=
  (List.range numSpeakers).map (fun i =>
    { id := s!"speaker_{i + 1}",
      name := s!"Speaker {i + 1}",
      confidence := confidences i,
      sampleAudio := audioSnippets.getD i "" })

/-- `TranscriptionService.simulateSpeakerDiarization`, with the random
jitter and snippet extraction passed in as parameters. -/
def simulateSpeakerDiarization (transcript : String) (confidences : Nat → ℚ)
    (audioSnippets : List String) : List Speaker :=
  mkSpeakers (numSpeakersOf transcript) confidences audioSnippets

/-! ### Recording session controller (`AudioRecordingService`) -/

/-- The mutable fields of `AudioRecordingService`, plus a side-effect log
(`createdFiles`, `spawnCount`) recording write-stream creation and
subprocess spawns so that "no side effects" is expressible. -/
structure RecorderState where
  isRecording : Bool
  startTime : Option Nat
  currentFileName : Option String
  recording : Bool
  audioFileOpen : Bool
  statusInterval : Bool
  recordingsDir : String
  createdFiles : List String
  spawnCount : Nat
deriving DecidableEq, Repr

/-- Result shape of `startRecording`:
`{ success: boolean; fileName?: string; error?: string }`. -/
structure StartResult where
  success : Bool
  fileName : Option String
  error : Option String
deriving DecidableEq, Repr

/-- Result shape of `stopRecording`:
`{ success: boolean; audioFilePath?: string; duration?: number; error?: string }`. -/
structure StopResult where
  success : Bool
  audioFilePath : Option String
  duration : Option Nat
  error : Option String
deriving DecidableEq, Repr

/-- `path.join(dir, fileName)`. -/
def pathJoin (dir fileName : String) : String :=
  dir ++ "/" ++ fileName

/-- `AudioRecordingService.startRecording`.  `backend` is the result of
`findRecordProgram` (subprocess discovery), `nowMs` the clock
(`new Date()`), and `timestamp` the formatted timestamp used in the file
name.  The platform-specific install help appended to the backend error
message is abbreviated. -/
def startRecording (backend : Option String) (nowMs : Nat) (timestamp : String)
    (st : RecorderState) : RecorderState × StartResult :=
  if st.isRecording then
    (st, { success := false, fileName := none,
           error := some "Recording already in progress" })
  else
    match backend with
    | none =>
      (st, { success := false, fileName := none,
             error := some "Audio backend not found." })
    | some _ =>
      let fileName := "meeting_" ++ timestamp ++ ".wav"
      let filePath := pathJoin st.recordingsDir fileName
      ({ st with
          currentFileName := some fileName,
          audioFileOpen := true,
          createdFiles := st.createdFiles ++ [filePath],
          recording := true,
          spawnCount := st.spawnCount + 1,
          isRecording := true,
          startTime := some nowMs,
          statusInterval := true },
       { success := true, fileName := some fileName, error := none })

/-- `AudioRecordingService.stopRecording`.  Duration is
`Math.floor((Date.now() - startTime) / 1000)`. -/
def stopRecording (nowMs : Nat) (st : RecorderState) : RecorderState × StopResult :=
  if st.isRecording then
    let duration :=
      match st.startTime with
      | some t0 => (nowMs - t0) / 1000
      | none => 0
    let audioFilePath := st.currentFileName.map (pathJoin st.recordingsDir)
    ({ st with
        recording := false,
        audioFileOpen := false,
        isRecording := false,
        startTime := none,
        statusInterval := false,
        currentFileName := none },
     { success := true, audioFilePath := audioFilePath,
       duration := some duration, error := none })
  else
    (st, { success := false, audioFilePath := none, duration := none,
           error := some "No recording in progress" })

/-- The `level` field of a `recording:timeWarning` event. -/
inductive WarnLevel
  | warning
  | critical
deriving DecidableEq, Repr

/-- A `recording:timeWarning` event payload. -/
structure TimeWarning where
  duration : Nat
  message : String
  level : WarnLevel
deriving DecidableEq, Repr

/-- The duration check inside the `startStatusUpdates` interval callback:
a warning at exactly `70 * 60` elapsed seconds, a critical warning at
exactly `90 * 60`, nothing otherwise. -/
def timeWarningAt (duration : Nat) : Option TimeWarning :=
  if duration = 70 * 60 then
    some { duration := duration,
           message := "Recording has reached 70 minutes. Do you want to continue?",
           level := WarnLevel.warning }
  else if duration = 90 * 60 then
    some { duration := duration,
           message := "Recording has reached 90 minutes. This is getting quite long. Do you want to continue?",
           level := WarnLevel.critical }
  else none

/-- `getRecordingStatus().duration`: elapsed whole seconds while
recording, `0` when idle. -/
def recordingDuration (st : RecorderState) (nowMs : Nat) : Nat :=
  if st.isRecording then
    match st.startTime with
    | some t0 => (nowMs - t0) / 1000
    | none => 0
  else 0

/-- One firing of the status interval: the interval bails out when not
recording, otherwise emits the time warning for the current duration
(the unconditional `recording:statusUpdate` event is not modelled). -/
def statusTickWarning (st : RecorderState) (nowMs : Nat) : Option TimeWarning :=
  if st.isRecording then timeWarningAt (recordingDuration st nowMs) else none

/-- All time warnings emitted over a session whose interval fires at the
given clock instants. -/
def sessionWarnings (st : RecorderState) (tickTimes : List Nat) : List TimeWarning :=
  tickTimes.filterMap (statusTickWarning st)

/-! ### Processing pipeline (`ProcessingWorkflow`) -/

/-- `ActionItem` from `src/shared/types.ts`. -/
structure ActionItem where
  id : String
  task : String
  assignee : String
  dueDate : Option String
  priority : String
  completed : Bool
deriving DecidableEq, Repr

/-- `TranscriptionResult` from `src/shared/types.ts`. -/
structure TranscriptionResult where
  transcript : String
  speakers : List Speaker
  confidence : ℚ
  duration : Nat
deriving DecidableEq, Repr

/-- `AIAnalysisResult` from `src/shared/types.ts`. -/
structure AIAnalysisResult where
  summary : String
  decisions : List String
  actionItems : List ActionItem
  suggestedTitle : String
  keyTopics : List String
deriving DecidableEq, Repr

/-- The meeting record built in `saveMeeting`
(`Omit<Meeting, 'id' | 'createdAt' | 'updatedAt'>`). -/
structure MeetingDraft where
  title : String
  date : String
  duration : Nat
  participants : List String
  transcript : String
  summary : String
  decisions : List String
  actionItems : List ActionItem
  audioFilePath : Option String
  tags : List String
  notes : String
deriving DecidableEq, Repr

/-- `Meeting` from `src/shared/types.ts` (what `database.saveMeeting`
returns). -/
structure Meeting where
  id : String
  title : String
  date : String
  duration : Nat
  participants : List String
  transcript : String
  summary : String
  decisions : List String
  actionItems : List ActionItem
  audioFilePath : Option String
  createdAt : String
  updatedAt : String
  tags : List String
  notes : String
deriving DecidableEq, Repr

/-- `ProcessingStep` from `ProcessingWorkflow`. -/
inductive ProcessingStep
  | transcription
  | speakerIdentification
  | aiAnalysis
  | saving
  | complete
deriving DecidableEq, Repr

/-- The metadata object passed to `ai.analyzeMeeting`. -/
structure AnalysisMetadata where
  date : String
  duration : Nat
  participants : List String
deriving DecidableEq, Repr

/-- The external collaborators used by one pipeline run:
`new Date().toISOString()`, `window.electronAPI.ai.analyzeMeeting`,
`window.electronAPI.database.saveMeeting` and
`window.electronAPI.files.deleteAudio`, each returning its outcome. -/
structure PipelineEnv where
  nowIso : String
  aiAnalyzeMeeting : String → AnalysisMetadata → Except String AIAnalysisResult
  databaseSaveMeeting : MeetingDraft → Except String Meeting
  filesDeleteAudio : String → Except String Unit

/-- The React state of one `ProcessingWorkflow` run, with a `trace` of
every `setCurrentStep` call, the meeting handed to `onComplete`, and a
log of audio-deletion attempts `(path, succeeded)`. -/
structure WorkflowState where
  audioFilePath : String
  currentStep : ProcessingStep
  progress : Nat
  transcriptionResult : Option TranscriptionResult
  analysisResult : Option AIAnalysisResult
  error : Option String
  deleteRecording : Bool
  savedMeeting : Option Meeting
  trace : List ProcessingStep
  deletions : List (String × Bool)
deriving DecidableEq, Repr

/-- `setCurrentStep`, also recording the step in the trace. -/
def setStep (st : WorkflowState) (s : ProcessingStep) : WorkflowState :=
  { st with currentStep := s, trace := st.trace ++ [s] }

/-- Initial `useState` values of `ProcessingWorkflow` (with
`deleteRecording` as chosen via the cleanup checkbox). -/
def initWorkflow (audioFilePath : String) (deleteRecording : Bool) : WorkflowState :=
  { audioFilePath := audioFilePath,
    currentStep := ProcessingStep.transcription,
    progress := 0,
    transcriptionResult := none,
    analysisResult := none,
    error := none,
    deleteRecording := deleteRecording,
    savedMeeting := none,
    trace := [],
    deletions := [] }

/-- The `meeting` object literal built inside `saveMeeting`. -/
def buildMeetingDraft (nowIso : String) (audioFilePath : String)
    (deleteRecording : Bool) (tr : TranscriptionResult) (speakers : List Speaker)
    (analysis : AIAnalysisResult) : MeetingDraft :=
  { title := analysis.suggestedTitle,
    date := nowIso,
    duration := tr.duration,
    participants := speakers.map Speaker.name,
    transcript := tr.transcript,
    summary := analysis.summary,
    decisions := analysis.decisions,
    actionItems := analysis.actionItems,
    audioFilePath := if deleteRecording then none else some audioFilePath,
    tags := analysis.keyTopics,
    notes := "" }

/-- `ProcessingWorkflow.saveMeeting`: build the draft, persist it,
best-effort delete the audio when requested (the deletion outcome is
logged but never affects the result), then mark the run complete. -/
def saveMeetingStep (env : PipelineEnv) (st : WorkflowState)
    (speakers : List Speaker) (analysis : AIAnalysisResult) : WorkflowState :=
  let st1 := { setStep st ProcessingStep.saving with progress := 90 }
  match st1.transcriptionResult with
  | none => { st1 with error := some "Failed to save meeting. Please try again." }
  | some tr =>
    match env.databaseSaveMeeting
        (buildMeetingDraft env.nowIso st1.audioFilePath st1.deleteRecording
          tr speakers analysis) with
    | Except.error _ =>
      { st1 with error := some "Failed to save meeting. Please try again." }
    | Except.ok saved =>
      let st2 :=
        if st1.deleteRecording then
          match env.filesDeleteAudio st1.audioFilePath with
          | Except.ok _ =>
            { st1 with deletions := st1.deletions ++ [(st1.audioFilePath, true)] }
          | Except.error _ =>
            { st1 with deletions := st1.deletions ++ [(st1.audioFilePath, false)] }
        else st1
      { setStep { st2 with progress := 100 } ProcessingStep.complete with
        savedMeeting := some saved }

/-- `ProcessingWorkflow.startAIAnalysis`: call the analysis client with
transcript and metadata, then fall through to `saveMeetingStep`. -/
def startAIAnalysis (env : PipelineEnv) (st : WorkflowState)
    (speakers : List Speaker) : WorkflowState :=
  let st1 := { setStep st ProcessingStep.aiAnalysis with progress := 60 }
  match st1.transcriptionResult with
  | none =>
    { st1 with error := some "Failed to analyze meeting. Please check your API configuration." }
  | some tr =>
    match env.aiAnalyzeMeeting tr.transcript
        { date := env.nowIso, duration := tr.duration,
          participants := speakers.map Speaker.name } with
    | Except.error _ =>
      { st1 with error := some "Failed to analyze meeting. Please check your API configuration." }
    | Except.ok analysis =>
      saveMeetingStep env
        { st1 with analysisResult := some analysis, progress := 80 } speakers analysis

/-- `ProcessingWorkflow.startTranscription`, with the outcome of
`transcription.processAudio` passed in: on success with at least one
detected speaker the run moves to the speaker-identification step;
with zero speakers it proceeds straight into `startAIAnalysis`. -/
def startTranscription (env : PipelineEnv) (st : WorkflowState)
    (result : Except String TranscriptionResult) : WorkflowState :=
  let st1 := { setStep st ProcessingStep.transcription with progress := 10 }
  match result with
  | Except.error _ =>
    { st1 with error := some "Failed to transcribe audio. Please check your API configuration." }
  | Except.ok r =>
    let st2 := { st1 with transcriptionResult := some r, progress := 40 }
    if 0 < r.speakers.length then setStep st2 ProcessingStep.speakerIdentification
    else startAIAnalysis env st2 []

/-- `ProcessingWorkflow.handleSpeakersIdentified`. -/
def handleSpeakersIdentified (env : PipelineEnv) (st : WorkflowState)
    (identifiedSpeakers : List Speaker) : WorkflowState :=
  startAIAnalysis env st identifiedSpeakers

/-- `ProcessingWorkflow.handleSkipSpeakerIdentification`: positional
generic names. -/
def handleSkipSpeakerIdentification (env : PipelineEnv) (st : WorkflowState) :
    WorkflowState :=
  let genericSpeakers :=
    match st.transcriptionResult with
    | some tr => tr.speakers.mapIdx (fun i sp => { sp with name := s!"Speaker {i + 1}" })
    | none => []
  startAIAnalysis env st genericSpeakers

/-! ### Speaker naming (`SpeakerIdentification` component) -/

/-- JS `a || b` on strings: only `''` is falsy. -/
def jsStringOr (a b : String) : String :=
  if a = "" then b else a

/-- The fallback name `` `Speaker ${speaker.id.split('_')[1]}` `` used by
`handleConfirmSpeakers`; JS renders a missing index as `undefined`. -/
def defaultSpeakerName (id : String) : String :=
  "Speaker " ++ (jsSplitChar '_' id).getD 1 "undefined"

/-- `handleConfirmSpeakers`: each speaker gets the entered name, or the
positional fallback when the entry is the empty string.
`speakerNames` models the component's id-keyed name map. -/
def handleConfirmSpeakers (speakers : List Speaker)
    (speakerNames : String → String) : List Speaker :=
  speakers.map (fun sp =>
    { sp with name := jsStringOr (speakerNames sp.id) (defaultSpeakerName sp.id) })

/-- `Object.values(speakerNames)` in component order, filtered to
entries whose trimmed value is nonempty (the names considered "entered"). -/
def enteredNames (speakers : List Speaker) (speakerNames : String → String) :
    List String :=
  (speakers.map (fun sp => speakerNames sp.id)).filter (fun n => jsTrim n ≠ "")

/-- `hasAtLeastOneName`. -/
def hasAtLeastOneName (speakers : List Speaker) (speakerNames : String → String) :
    Bool :=
  (speakers.map (fun sp => speakerNames sp.id)).any (fun n => jsTrim n ≠ "")

/-- `hasUniquenames`: the entered names, compared untrimmed, are pairwise
distinct (`names.length === new Set(names).size`). -/
def hasUniqueNames (speakers : List Speaker) (speakerNames : String → String) :
    Bool :=
  (enteredNames speakers speakerNames).dedup.length
    = (enteredNames speakers speakerNames).length

/-- The enabled-guard of the Confirm Speakers button:
`hasAtLeastOneName && hasUniquenames()`; a submission with this guard
false is rejected (the button is disabled and the run stays at the
naming stage). -/
def confirmEnabled (speakers : List Speaker) (speakerNames : String → String) :
    Bool :=
  hasAtLeastOneName speakers speakerNames && hasUniqueNames speakers speakerNames

/-! ### Theorems -/

theorem baseSpeakerEstimate_bounds (t : String) :
    1 ≤ baseSpeakerEstimate t ∧ baseSpeakerEstimate t ≤ 3 := by
  unfold baseSpeakerEstimate
  split_ifs <;> omega

theorem numSpeakersOf_bounds (t : String) :
    1 ≤ numSpeakersOf t ∧ numSpeakersOf t ≤ 4 := by
  have hb := baseSpeakerEstimate_bounds t
  simp only [numSpeakersOf, Nat.min_def, Nat.max_def]
  split_ifs <;> omega

/-- C4: transcripts of at most 100 whitespace tokens always estimate one
speaker, and above that threshold the pre-adjustment estimate follows the
indicator-ratio thresholds 0.15 and 0.08. -/
theorem spec_C4 (t : String) :
    (totalWords t ≤ 100 → numSpeakersOf t = 1)
    ∧ (100 < totalWords t →
        baseSpeakerEstimate t
          = if (15 : ℚ) / 100 < indicatorRatio t then 3
            else if (8 : ℚ) / 100 < indicatorRatio t then 2
            else 1) := by
  constructor
  · intro h
    have hno : ¬ 100 < totalWords t := by omega
    unfold numSpeakersOf baseSpeakerEstimate
    simp [hno]
  · intro h
    unfold baseSpeakerEstimate
    rw [if_pos h]

/-- Witness for C4: the 9-token demo transcript estimates 1 speaker, and a
106-token transcript takes the ratio-threshold branch. -/
theorem spec_C4_witness :
    (totalWords "Yes I agree, you said the budget is approved" ≤ 100
      ∧ numSpeakersOf "Yes I agree, you said the budget is approved" = 1)
    ∧ (100 < totalWords (String.join (List.replicate 21 "Mister Smith spoke calmly today. "))
      ∧ baseSpeakerEstimate (String.join (List.replicate 21 "Mister Smith spoke calmly today. "))
          = if (15 : ℚ) / 100 < indicatorRatio (String.join (List.replicate 21 "Mister Smith spoke calmly today. ")) then 3
            else if (8 : ℚ) / 100 < indicatorRatio (String.join (List.replicate 21 "Mister Smith spoke calmly today. ")) then 2
            else 1) :=
  ⟨⟨by decide, (spec_C4 "Yes I agree, you said the budget is approved").1 (by decide)⟩,
   ⟨by decide, (spec_C4 (String.join (List.replicate 21 "Mister Smith spoke calmly today. "))).2 (by decide)⟩⟩

/-- C5: above 100 tokens, more than 5 kept sentences of which more than
60% are short (fewer than 15 whitespace tokens) raise the estimate to at
least 2, and the final estimate always lies in [1, 4].  "Words" of a
sentence are whitespace-split tokens of the untrimmed piece, exactly as
in the source. -/
theorem spec_C5 (t : String) :
    (100 < totalWords t →
      5 < (sentencesOf t).length →
      (6 : ℚ) / 10 < (shortSentenceCount t : ℚ) / ((sentencesOf t).length : ℚ) →
      2 ≤ numSpeakersOf t)
    ∧ (1 ≤ numSpeakersOf t ∧ numSpeakersOf t ≤ 4) := by
  refine ⟨fun h1 h2 h3 => ?_, numSpeakersOf_bounds t⟩
  have hb := baseSpeakerEstimate_bounds t
  simp only [numSpeakersOf]
  rw [if_pos h1, if_pos h2, if_pos h3]
  simp only [Nat.min_def, Nat.max_def]
  split_ifs <;> omega

/-- Witness for C5: 21 copies of a short five-word sentence (106 tokens,
21 kept sentences, all short) raise the estimate to 2. -/
theorem spec_C5_witness :
    2 ≤ numSpeakersOf (String.join (List.replicate 21 "Mister Smith spoke calmly today. "))
    ∧ (1 ≤ numSpeakersOf (String.join (List.replicate 21 "Mister Smith spoke calmly today. "))
      ∧ numSpeakersOf (String.join (List.replicate 21 "Mister Smith spoke calmly today. ")) ≤ 4) :=
  ⟨(spec_C5 (String.join (List.replicate 21 "Mister Smith spoke calmly today. "))).1
      (by decide) (by decide)
      (by
        have h1 : shortSentenceCount (String.join (List.replicate 21 "Mister Smith spoke calmly today. ")) = 21 := by decide
        have h2 : (sentencesOf (String.join (List.replicate 21 "Mister Smith spoke calmly today. "))).length = 21 := by decide
        rw [h1, h2]
        norm_num),
   (spec_C5 (String.join (List.replicate 21 "Mister Smith spoke calmly today. "))).2⟩

/-- C10: the estimator always returns between 1 and 4 speakers, so a
transcription result built from it never reports zero speakers. -/
theorem spec_C10 (t : String) (confidences : Nat → ℚ) (audioSnippets : List String) :
    1 ≤ (simulateSpeakerDiarization t confidences audioSnippets).length
    ∧ (simulateSpeakerDiarization t confidences audioSnippets).length ≤ 4 := by
  have h := numSpeakersOf_bounds t
  simpa [simulateSpeakerDiarization, mkSpeakers] using h

theorem timeWarningAt_none (s : Nat) (h1 : s ≠ 4200) (h2 : s ≠ 5400) :
    timeWarningAt s = none := by
  unfold timeWarningAt
  rw [if_neg (by omega), if_neg (by omega)]

theorem warningCount (secs : List Nat) :
    ((secs.filterMap timeWarningAt).countP
      (fun w => w.level == WarnLevel.warning)) = secs.count 4200 := by
  induction secs with
  | nil => rfl
  | cons s l ih =>
    by_cases h1 : s = 4200
    · subst h1
      have hw : timeWarningAt 4200
          = some { duration := 4200,
                   message := "Recording has reached 70 minutes. Do you want to continue?",
                   level := WarnLevel.warning } := rfl
      simp [List.filterMap_cons, hw, List.countP_cons, List.count_cons, ih]
    · by_cases h2 : s = 5400
      · subst h2
        have hc : timeWarningAt 5400
            = some { duration := 5400,
                     message := "Recording has reached 90 minutes. This is getting quite long. Do you want to continue?",
                     level := WarnLevel.critical } := rfl
        simp [List.filterMap_cons, hc, List.countP_cons, List.count_cons, ih]
      · simp [List.filterMap_cons, timeWarningAt_none s h1 h2, List.count_cons, ih, h1]

theorem criticalCount (secs : List Nat) :
    ((secs.filterMap timeWarningAt).countP
      (fun w => w.level == WarnLevel.critical)) = secs.count 5400 := by
  induction secs with
  | nil => rfl
  | cons s l ih =>
    by_cases h1 : s = 4200
    · subst h1
      have hw : timeWarningAt 4200
          = some { duration := 4200,
                   message := "Recording has reached 70 minutes. Do you want to continue?",
                   level := WarnLevel.warning } := rfl
      simp [List.filterMap_cons, hw, List.countP_cons, List.count_cons, ih]
    · by_cases h2 : s = 5400
      · subst h2
        have hc : timeWarningAt 5400
            = some { duration := 5400,
                     message := "Recording has reached 90 minutes. This is getting quite long. Do you want to continue?",
                     level := WarnLevel.critical } := rfl
        simp [List.filterMap_cons, hc, List.countP_cons, List.count_cons, ih]
      · simp [List.filterMap_cons, timeWarningAt_none s h1 h2, List.count_cons, ih, h2]

theorem statusTickWarning_at (st : RecorderState) (t0 s : Nat)
    (hrec : st.isRecording = true) (hstart : st.startTime = some t0) :
    statusTickWarning st (t0 + 1000 * s) = timeWarningAt s := by
  unfold statusTickWarning recordingDuration
  rw [hrec, hstart]
  simp [Nat.add_sub_cancel_left, Nat.mul_div_cancel_left s (by norm_num : (0:Nat) < 1000)]

/-- C1: over a recording session whose 1 Hz emitter fires once for each
elapsed second in `secs` (no second visited twice), exactly one Warning
is emitted when second 4200 is visited and exactly one Critical when
second 5400 is visited — never more than once per session — and the
callback emits nothing at 4199 or 4201. -/
theorem spec_C1 (st : RecorderState) (t0 : Nat) (secs : List Nat)
    (hrec : st.isRecording = true) (hstart : st.startTime = some t0)
    (hnodup : secs.Nodup) :
    ((sessionWarnings st (secs.map (fun s => t0 + 1000 * s))).countP
        (fun w => w.level == WarnLevel.warning)
      = if 4200 ∈ secs then 1 else 0)
    ∧ ((sessionWarnings st (secs.map (fun s => t0 + 1000 * s))).countP
        (fun w => w.level == WarnLevel.critical)
      = if 5400 ∈ secs then 1 else 0)
    ∧ timeWarningAt 4199 = none ∧ timeWarningAt 4201 = none := by
  have hmap : sessionWarnings st (secs.map (fun s => t0 + 1000 * s))
      = secs.filterMap timeWarningAt := by
    unfold sessionWarnings
    rw [List.filterMap_map]
    apply List.filterMap_congr
    intro s _
    exact statusTickWarning_at st t0 s hrec hstart
  refine ⟨?_, ?_, rfl, rfl⟩
  · rw [hmap, warningCount, List.count_eq_of_nodup hnodup]
  · rw [hmap, criticalCount, List.count_eq_of_nodup hnodup]

/-- Witness for C1: a concrete recording session visiting seconds
0, 4199, 4200, 4201 and 5400 exactly once. -/
theorem spec_C1_witness :
    ((sessionWarnings
        { isRecording := true, startTime := some 0,
          currentFileName := some "meeting_t.wav", recording := true,
          audioFileOpen := true, statusInterval := true,
          recordingsDir := "/rec", createdFiles := [], spawnCount := 1 }
        ([0, 4199, 4200, 4201, 5400].map (fun s => 0 + 1000 * s))).countP
        (fun w => w.level == WarnLevel.warning)
      = if 4200 ∈ [0, 4199, 4200, 4201, 5400] then 1 else 0)
    ∧ ((sessionWarnings
        { isRecording := true, startTime := some 0,
          currentFileName := some "meeting_t.wav", recording := true,
          audioFileOpen := true, statusInterval := true,
          recordingsDir := "/rec", createdFiles := [], spawnCount := 1 }
        ([0, 4199, 4200, 4201, 5400].map (fun s => 0 + 1000 * s))).countP
        (fun w => w.level == WarnLevel.critical)
      = if 5400 ∈ [0, 4199, 4200, 4201, 5400] then 1 else 0)
    ∧ timeWarningAt 4199 = none ∧ timeWarningAt 4201 = none :=
  spec_C1
    { isRecording := true, startTime := some 0,
      currentFileName := some "meeting_t.wav", recording := true,
      audioFileOpen := true, statusInterval := true,
      recordingsDir := "/rec", createdFiles := [], spawnCount := 1 }
    0 [0, 4199, 4200, 4201, 5400] rfl rfl (by decide)

/-- C6: `startRecording` while a session is recording fails fast with the
`AlreadyRecording` error and returns the state verbatim — same file list,
same spawn count, same file name, every field untouched. -/
theorem spec_C6 (backend : Option String) (nowMs : Nat) (timestamp : String)
    (st : RecorderState) (h : st.isRecording = true) :
    startRecording backend nowMs timestamp st
      = (st, { success := false, fileName := none,
               error := some "Recording already in progress" }) := by
  unfold startRecording
  rw [if_pos h]

/-- Witness for C6: a concrete recording state rejects a second start. -/
theorem spec_C6_witness :
    startRecording (some "sox") 7000 "2026-01-01T00-00-00"
        { isRecording := true, startTime := some 0,
          currentFileName := some "meeting_a.wav", recording := true,
          audioFileOpen := true, statusInterval := true,
          recordingsDir := "/rec", createdFiles := ["/rec/meeting_a.wav"],
          spawnCount := 1 }
      = ({ isRecording := true, startTime := some 0,
           currentFileName := some "meeting_a.wav", recording := true,
           audioFileOpen := true, statusInterval := true,
           recordingsDir := "/rec", createdFiles := ["/rec/meeting_a.wav"],
           spawnCount := 1 },
         { success := false, fileName := none,
           error := some "Recording already in progress" }) :=
  spec_C6 (some "sox") 7000 "2026-01-01T00-00-00" _ rfl

/-- C7: `stopRecording` on an idle controller returns the `NotRecording`
error and leaves the state untouched, and after a successful stop the
state is idle again, so an immediately following second stop returns
`NotRecording` instead of crashing. -/
theorem spec_C7 (nowA nowB : Nat) (st : RecorderState) :
    (st.isRecording = false →
      stopRecording nowA st
        = (st, { success := false, audioFilePath := none, duration := none,
                 error := some "No recording in progress" }))
    ∧ (st.isRecording = true →
      ((stopRecording nowA st).2.success = true
        ∧ (stopRecording nowA st).1.isRecording = false
        ∧ stopRecording nowB (stopRecording nowA st).1
            = ((stopRecording nowA st).1,
               { success := false, audioFilePath := none, duration := none,
                 error := some "No recording in progress" }))) := by
  constructor
  · intro h
    unfold stopRecording
    rw [if_neg (by simp [h])]
  · intro h
    have h1 : (stopRecording nowA st).1.isRecording = false := by
      simp [stopRecording, h]
    refine ⟨?_, h1, ?_⟩
    · simp [stopRecording, h]
    · simp [stopRecording, h]

/-- Witness for C7: stop on a concrete idle controller errors, and after
stopping a concrete recording session a second stop errors. -/
theorem spec_C7_witness :
    (stopRecording 5000
        { isRecording := false, startTime := none, currentFileName := none,
          recording := false, audioFileOpen := false, statusInterval := false,
          recordingsDir := "/rec", createdFiles := [], spawnCount := 0 }
      = ({ isRecording := false, startTime := none, currentFileName := none,
           recording := false, audioFileOpen := false, statusInterval := false,
           recordingsDir := "/rec", createdFiles := [], spawnCount := 0 },
         { success := false, audioFilePath := none, duration := none,
           error := some "No recording in progress" }))
    ∧ ((stopRecording 5000
          { isRecording := true, startTime := some 0,
            currentFileName := some "meeting_a.wav", recording := true,
            audioFileOpen := true, statusInterval := true,
            recordingsDir := "/rec", createdFiles := ["/rec/meeting_a.wav"],
            spawnCount := 1 }).2.success = true
      ∧ (stopRecording 5000
          { isRecording := true, startTime := some 0,
            currentFileName := some "meeting_a.wav", recording := true,
            audioFileOpen := true, statusInterval := true,
            recordingsDir := "/rec", createdFiles := ["/rec/meeting_a.wav"],
            spawnCount := 1 }).1.isRecording = false
      ∧ stopRecording 6000
          (stopRecording 5000
            { isRecording := true, startTime := some 0,
              currentFileName := some "meeting_a.wav", recording := true,
              audioFileOpen := true, statusInterval := true,
              recordingsDir := "/rec", createdFiles := ["/rec/meeting_a.wav"],
              spawnCount := 1 }).1
        = ((stopRecording 5000
              { isRecording := true, startTime := some 0,
                currentFileName := some "meeting_a.wav", recording := true,
                audioFileOpen := true, statusInterval := true,
                recordingsDir := "/rec", createdFiles := ["/rec/meeting_a.wav"],
                spawnCount := 1 }).1,
           { success := false, audioFilePath := none, duration := none,
             error := some "No recording in progress" })) :=
  ⟨(spec_C7 5000 6000
      { isRecording := false, startTime := none, currentFileName := none,
        recording := false, audioFileOpen := false, statusInterval := false,
        recordingsDir := "/rec", createdFiles := [], spawnCount := 0 }).1 rfl,
   (spec_C7 5000 6000
      { isRecording := true, startTime := some 0,
        currentFileName := some "meeting_a.wav", recording := true,
        audioFileOpen := true, statusInterval := true,
        recordingsDir := "/rec", createdFiles := ["/rec/meeting_a.wav"],
        spawnCount := 1 }).2 rfl⟩

theorem saveMeetingStep_trace (env : PipelineEnv) (st : WorkflowState)
    (speakers : List Speaker) (analysis : AIAnalysisResult) :
    (saveMeetingStep env st speakers analysis).trace
      = st.trace ++ ProcessingStep.saving ::
        (match st.transcriptionResult with
         | none => []
         | some tr =>
           match env.databaseSaveMeeting
               (buildMeetingDraft env.nowIso st.audioFilePath st.deleteRecording
                 tr speakers analysis) with
           | Except.error _ => []
           | Except.ok _ => [ProcessingStep.complete]) := by
  unfold saveMeetingStep
  dsimp only [setStep]
  cases htr : st.transcriptionResult with
  | none => simp [htr]
  | some tr =>
    cases hdel : st.deleteRecording with
    | true =>
      cases hsave : env.databaseSaveMeeting
          (buildMeetingDraft env.nowIso st.audioFilePath true tr speakers analysis) with
      | error e => simp [htr, hdel, hsave]
      | ok saved =>
        cases hdelr : env.filesDeleteAudio st.audioFilePath with
        | ok u => simp [htr, hdel, hsave, hdelr]
        | error e => simp [htr, hdel, hsave, hdelr]
    | false =>
      cases hsave : env.databaseSaveMeeting
          (buildMeetingDraft env.nowIso st.audioFilePath false tr speakers analysis) with
      | error e => simp [htr, hdel, hsave]
      | ok saved => simp [htr, hdel, hsave]

theorem startAIAnalysis_trace (env : PipelineEnv) (st : WorkflowState)
    (speakers : List Speaker) :
    (startAIAnalysis env st speakers).trace
      = st.trace ++ ProcessingStep.aiAnalysis ::
        (match st.transcriptionResult with
         | none => []
         | some tr =>
           match env.aiAnalyzeMeeting tr.transcript
               { date := env.nowIso, duration := tr.duration,
                 participants := speakers.map Speaker.name } with
           | Except.error _ => []
           | Except.ok analysis =>
             ProcessingStep.saving ::
               (match env.databaseSaveMeeting
                   (buildMeetingDraft env.nowIso st.audioFilePath st.deleteRecording
                     tr speakers analysis) with
                | Except.error _ => []
                | Except.ok _ => [ProcessingStep.complete])) := by
  unfold startAIAnalysis
  dsimp only [setStep]
  cases htr : st.transcriptionResult with
  | none => simp [htr]
  | some tr =>
    cases han : env.aiAnalyzeMeeting tr.transcript
        { date := env.nowIso, duration := tr.duration,
          participants := speakers.map Speaker.name } with
    | error e => simp [htr, han]
    | ok analysis =>
      simp only [htr, han]
      rw [saveMeetingStep_trace]
      simp [htr]

theorem startAIAnalysis_trace_shape (env : PipelineEnv) (st : WorkflowState)
    (speakers : List Speaker) :
    ∃ tail, (startAIAnalysis env st speakers).trace
        = st.trace ++ ProcessingStep.aiAnalysis :: tail
      ∧ ∀ x ∈ tail, x = ProcessingStep.saving ∨ x = ProcessingStep.complete := by
  refine ⟨_, startAIAnalysis_trace env st speakers, ?_⟩
  cases htr : st.transcriptionResult with
  | none => simp
  | some tr =>
    cases han : env.aiAnalyzeMeeting tr.transcript
        { date := env.nowIso, duration := tr.duration,
          participants := speakers.map Speaker.name } with
    | error e => simp [han]
    | ok analysis =>
      cases hsave : env.databaseSaveMeeting
          (buildMeetingDraft env.nowIso st.audioFilePath st.deleteRecording
            tr speakers analysis) with
      | error e => simp [han, hsave]
      | ok saved => simp [han, hsave]

/-- C3: a successful transcription with zero detected speakers skips the
speaker-identification step (the trace goes straight from transcription
to ai-analysis and never visits it), while one or more detected speakers
leave the run stalled at speaker-identification — nothing analyzed,
nothing persisted — until `handleSpeakersIdentified` or the skip handler
resumes it into the analysis step. -/
theorem spec_C3 (env : PipelineEnv) (audioPath : String) (del : Bool)
    (r : TranscriptionResult) :
    (r.speakers.length = 0 →
      (∃ rest,
        (startTranscription env (initWorkflow audioPath del) (Except.ok r)).trace
          = ProcessingStep.transcription :: ProcessingStep.aiAnalysis :: rest)
      ∧ ProcessingStep.speakerIdentification
          ∉ (startTranscription env (initWorkflow audioPath del) (Except.ok r)).trace)
    ∧ (0 < r.speakers.length →
      (startTranscription env (initWorkflow audioPath del) (Except.ok r)).currentStep
          = ProcessingStep.speakerIdentification
      ∧ (startTranscription env (initWorkflow audioPath del) (Except.ok r)).trace
          = [ProcessingStep.transcription, ProcessingStep.speakerIdentification]
      ∧ (startTranscription env (initWorkflow audioPath del) (Except.ok r)).analysisResult
          = none
      ∧ (startTranscription env (initWorkflow audioPath del) (Except.ok r)).savedMeeting
          = none
      ∧ (∃ rest,
          (handleSkipSpeakerIdentification env
            (startTranscription env (initWorkflow audioPath del) (Except.ok r))).trace
            = [ProcessingStep.transcription, ProcessingStep.speakerIdentification,
               ProcessingStep.aiAnalysis] ++ rest)
      ∧ (∀ named, ∃ rest,
          (handleSpeakersIdentified env
            (startTranscription env (initWorkflow audioPath del) (Except.ok r)) named).trace
            = [ProcessingStep.transcription, ProcessingStep.speakerIdentification,
               ProcessingStep.aiAnalysis] ++ rest)) := by
  constructor
  · intro h0
    have hlen : ¬ 0 < r.speakers.length := by omega
    have heq : startTranscription env (initWorkflow audioPath del) (Except.ok r)
        = startAIAnalysis env
            { audioFilePath := audioPath,
              currentStep := ProcessingStep.transcription, progress := 40,
              transcriptionResult := some r, analysisResult := none,
              error := none, deleteRecording := del, savedMeeting := none,
              trace := [ProcessingStep.transcription], deletions := [] } [] := by
      unfold startTranscription initWorkflow
      dsimp only [setStep]
      rw [if_neg hlen]
      exact rfl
    obtain ⟨tail, htail, helem⟩ := startAIAnalysis_trace_shape env
      { audioFilePath := audioPath,
        currentStep := ProcessingStep.transcription, progress := 40,
        transcriptionResult := some r, analysisResult := none,
        error := none, deleteRecording := del, savedMeeting := none,
        trace := [ProcessingStep.transcription], deletions := [] } []
    constructor
    · exact ⟨tail, by rw [heq, htail]; rfl⟩
    · rw [heq, htail]
      intro hmem
      rcases List.mem_append.mp hmem with h | h
      · exact absurd (List.mem_singleton.mp h) (by decide)
      · rcases List.mem_cons.mp h with h | h
        · exact absurd h (by decide)
        · rcases helem _ h with h | h <;> exact absurd h (by decide)
  · intro hpos
    have heq2 : startTranscription env (initWorkflow audioPath del) (Except.ok r)
        = { audioFilePath := audioPath,
            currentStep := ProcessingStep.speakerIdentification, progress := 40,
            transcriptionResult := some r, analysisResult := none,
            error := none, deleteRecording := del, savedMeeting := none,
            trace := [ProcessingStep.transcription,
                      ProcessingStep.speakerIdentification],
            deletions := [] } := by
      unfold startTranscription initWorkflow
      dsimp only [setStep]
      rw [if_pos hpos]
      exact rfl
    rw [heq2]
    refine ⟨rfl, rfl, rfl, rfl, ?_, ?_⟩
    · obtain ⟨tail, htail, _⟩ := startAIAnalysis_trace_shape env
        { audioFilePath := audioPath,
          currentStep := ProcessingStep.speakerIdentification, progress := 40,
          transcriptionResult := some r, analysisResult := none,
          error := none, deleteRecording := del, savedMeeting := none,
          trace := [ProcessingStep.transcription,
                    ProcessingStep.speakerIdentification],
          deletions := [] }
        (r.speakers.mapIdx (fun i sp => { sp with name := s!"Speaker {i + 1}" }))
      refine ⟨tail, ?_⟩
      have hskip : handleSkipSpeakerIdentification env
          { audioFilePath := audioPath,
            currentStep := ProcessingStep.speakerIdentification, progress := 40,
            transcriptionResult := some r, analysisResult := none,
            error := none, deleteRecording := del, savedMeeting := none,
            trace := [ProcessingStep.transcription,
                      ProcessingStep.speakerIdentification],
            deletions := [] }
          = startAIAnalysis env
              { audioFilePath := audioPath,
                currentStep := ProcessingStep.speakerIdentification, progress := 40,
                transcriptionResult := some r, analysisResult := none,
                error := none, deleteRecording := del, savedMeeting := none,
                trace := [ProcessingStep.transcription,
                          ProcessingStep.speakerIdentification],
                deletions := [] }
              (r.speakers.mapIdx (fun i sp => { sp with name := s!"Speaker {i + 1}" })) := by
        unfold handleSkipSpeakerIdentification
        exact rfl
      rw [hskip, htail]
      exact rfl
    · intro named
      obtain ⟨tail, htail, _⟩ := startAIAnalysis_trace_shape env
        { audioFilePath := audioPath,
          currentStep := ProcessingStep.speakerIdentification, progress := 40,
          transcriptionResult := some r, analysisResult := none,
          error := none, deleteRecording := del, savedMeeting := none,
          trace := [ProcessingStep.transcription,
                    ProcessingStep.speakerIdentification],
          deletions := [] } named
      refine ⟨tail, ?_⟩
      unfold handleSpeakersIdentified
      rw [htail]
      exact rfl

/-! ### Concrete scenario fixtures -/

/-- The 9-word transcript of the end-to-end scenario. -/
def demoTranscript : String :=
  "Yes I agree, you said the budget is approved"

/-- The estimator's speakers for the demo transcript (fixed confidence
jitter, no snippet extraction). -/
def demoSpeakers : List Speaker :=
  simulateSpeakerDiarization demoTranscript (fun _ => 1) []

/-- A successful transcription of the demo recording
(`confidence: 0.9` as in the source). -/
def demoTranscription : TranscriptionResult :=
  { transcript := demoTranscript, speakers := demoSpeakers,
    confidence := 9 / 10, duration := 60 }

/-- The fixed analysis result returned by the stubbed analysis client. -/
def demoAnalysisResult : AIAnalysisResult :=
  { summary := "Budget approved.", decisions := ["Budget approved"],
    actionItems := [], suggestedTitle := "Budget meeting",
    keyTopics := ["budget"] }

/-- A pipeline environment whose analysis client returns
`demoAnalysisResult`, whose database echoes the draft back with an id and
timestamps, and whose audio deletion succeeds. -/
def demoEnv : PipelineEnv :=
  { nowIso := "2026-01-01T00:00:00.000Z",
    aiAnalyzeMeeting := fun _ _ => Except.ok demoAnalysisResult,
    databaseSaveMeeting := fun d => Except.ok
      { id := "meeting-1", title := d.title, date := d.date,
        duration := d.duration, participants := d.participants,
        transcript := d.transcript, summary := d.summary,
        decisions := d.decisions, actionItems := d.actionItems,
        audioFilePath := d.audioFilePath,
        createdAt := "2026-01-01T00:00:00.000Z",
        updatedAt := "2026-01-01T00:00:00.000Z",
        tags := d.tags, notes := d.notes },
    filesDeleteAudio := fun _ => Except.ok () }

/-- Witness for C3: against the concrete environment, a transcription
with no speakers goes straight into analysis, and one with two speakers
stalls at speaker identification. -/
theorem spec_C3_witness :
    ((∃ rest,
        (startTranscription demoEnv (initWorkflow "a.wav" true)
          (Except.ok { transcript := "t", speakers := [], confidence := 1,
                       duration := 60 })).trace
          = ProcessingStep.transcription :: ProcessingStep.aiAnalysis :: rest)
      ∧ ProcessingStep.speakerIdentification
          ∉ (startTranscription demoEnv (initWorkflow "a.wav" true)
              (Except.ok { transcript := "t", speakers := [], confidence := 1,
                           duration := 60 })).trace)
    ∧ (startTranscription demoEnv (initWorkflow "a.wav" true)
        (Except.ok { transcript := "t", speakers := mkSpeakers 2 (fun _ => 1) [],
                     confidence := 1, duration := 60 })).currentStep
        = ProcessingStep.speakerIdentification :=
  ⟨(spec_C3 demoEnv "a.wav" true
      { transcript := "t", speakers := [], confidence := 1, duration := 60 }).1 rfl,
   (((spec_C3 demoEnv "a.wav" true
      { transcript := "t", speakers := mkSpeakers 2 (fun _ => 1) [],
        confidence := 1, duration := 60 }).2 (by decide))).1⟩

/-- Counterexample for C2: on the 9-word demo transcript the estimator
finds one speaker, so `result.speakers.length > 0` and the run stops at
the speaker-identification step — the analysis step is not entered, so
the run does not reach Analyzing directly as claimed. -/
theorem spec_C2_counterexample :
    numSpeakersOf demoTranscript = 1
    ∧ (startTranscription demoEnv (initWorkflow "recording.wav" true)
        (Except.ok demoTranscription)).currentStep
        = ProcessingStep.speakerIdentification
    ∧ ProcessingStep.aiAnalysis
        ∉ (startTranscription demoEnv (initWorkflow "recording.wav" true)
            (Except.ok demoTranscription)).trace := by
  decide

/-- C2 as amended: the 9-word transcript has 9 tokens and estimates one
speaker named "Speaker 1"; the run therefore stops at the
speaker-identification step, and once skip is invoked (assigning the
generic positional name) it completes with the persisted record's
participants equal to ["Speaker 1"] and an empty audio path, cleanup
having been requested. -/
theorem spec_C2 :
    totalWords demoTranscript = 9
    ∧ numSpeakersOf demoTranscript = 1
    ∧ demoSpeakers.map Speaker.name = ["Speaker 1"]
    ∧ (startTranscription demoEnv (initWorkflow "recording.wav" true)
        (Except.ok demoTranscription)).currentStep
        = ProcessingStep.speakerIdentification
    ∧ (handleSkipSpeakerIdentification demoEnv
        (startTranscription demoEnv (initWorkflow "recording.wav" true)
          (Except.ok demoTranscription))).currentStep
        = ProcessingStep.complete
    ∧ ((handleSkipSpeakerIdentification demoEnv
        (startTranscription demoEnv (initWorkflow "recording.wav" true)
          (Except.ok demoTranscription))).savedMeeting.map Meeting.participants)
        = some ["Speaker 1"]
    ∧ ((handleSkipSpeakerIdentification demoEnv
        (startTranscription demoEnv (initWorkflow "recording.wav" true)
          (Except.ok demoTranscription))).savedMeeting.map Meeting.audioFilePath)
        = some none := by
  decide

/-- The name map of a naming submission where the user typed "Speaker 2"
for the first detected speaker and left the second blank. -/
def clashNames : String → String :=
  fun id => if id = "speaker_1" then "Speaker 2" else ""

/-- C8 at its failing input: with two detected speakers, entering exactly
"Speaker 2" for the first and leaving the second blank passes the
uniqueness guard (which only checks entered names), yet the confirmed
speakers both end up displayed as "Speaker 2" — the resulting names are
not pairwise distinct, contradicting the claimed invariant. -/
theorem spec_C8_bug :
    confirmEnabled (mkSpeakers 2 (fun _ => 1) []) clashNames = true
    ∧ (handleConfirmSpeakers (mkSpeakers 2 (fun _ => 1) []) clashNames).map Speaker.name
        = ["Speaker 2", "Speaker 2"]
    ∧ ¬ ((handleConfirmSpeakers (mkSpeakers 2 (fun _ => 1) []) clashNames).map
          Speaker.name).Nodup := by
  decide

/-- C9: when persistence succeeds and cleanup was requested, a failing
audio deletion is logged but not propagated — the run still completes,
carries the persisted record unchanged, and raises no error. -/
theorem spec_C9 (env : PipelineEnv) (st : WorkflowState) (speakers : List Speaker)
    (analysis : AIAnalysisResult) (tr : TranscriptionResult) (saved : Meeting)
    (errMsg : String)
    (htr : st.transcriptionResult = some tr)
    (hdel : st.deleteRecording = true)
    (hsave : env.databaseSaveMeeting
        (buildMeetingDraft env.nowIso st.audioFilePath true tr speakers analysis)
      = Except.ok saved)
    (hfail : env.filesDeleteAudio st.audioFilePath = Except.error errMsg) :
    (saveMeetingStep env st speakers analysis).currentStep = ProcessingStep.complete
    ∧ (saveMeetingStep env st speakers analysis).savedMeeting = some saved
    ∧ (saveMeetingStep env st speakers analysis).error = st.error
    ∧ (saveMeetingStep env st speakers analysis).deletions
        = st.deletions ++ [(st.audioFilePath, false)] := by
  unfold saveMeetingStep
  dsimp only [setStep]
  simp [htr, hdel, hsave, hfail]

/-- A short successful transcription used in the cleanup-failure witness. -/
def shortTranscription : TranscriptionResult :=
  { transcript := "t", speakers := [], confidence := 1, duration := 5 }

/-- A pipeline state about to persist, with cleanup requested. -/
def cleanupFailState : WorkflowState :=
  { audioFilePath := "rec.wav", currentStep := ProcessingStep.aiAnalysis,
    progress := 80, transcriptionResult := some shortTranscription,
    analysisResult := some demoAnalysisResult, error := none,
    deleteRecording := true, savedMeeting := none,
    trace := [ProcessingStep.transcription, ProcessingStep.aiAnalysis],
    deletions := [] }

/-- `demoEnv` with an audio deletion that always fails. -/
def failingDeleteEnv : PipelineEnv :=
  { demoEnv with filesDeleteAudio := fun _ => Except.error "EACCES" }

/-- The record the demo database returns for the cleanup-failure run. -/
def cleanupFailSaved : Meeting :=
  { id := "meeting-1", title := "Budget meeting",
    date := "2026-01-01T00:00:00.000Z", duration := 5, participants := [],
    transcript := "t", summary := "Budget approved.",
    decisions := ["Budget approved"], actionItems := [], audioFilePath := none,
    createdAt := "2026-01-01T00:00:00.000Z",
    updatedAt := "2026-01-01T00:00:00.000Z", tags := ["budget"], notes := "" }

/-- Witness for C9: the concrete run with a failing deletion still
reaches Complete with the persisted record intact and the failure only
logged. -/
theorem spec_C9_witness :
    (saveMeetingStep failingDeleteEnv cleanupFailState [] demoAnalysisResult).currentStep
        = ProcessingStep.complete
    ∧ (saveMeetingStep failingDeleteEnv cleanupFailState [] demoAnalysisResult).savedMeeting
        = some cleanupFailSaved
    ∧ (saveMeetingStep failingDeleteEnv cleanupFailState [] demoAnalysisResult).error
        = cleanupFailState.error
    ∧ (saveMeetingStep failingDeleteEnv cleanupFailState [] demoAnalysisResult).deletions
        = cleanupFailState.deletions ++ [(cleanupFailState.audioFilePath, false)] :=
  spec_C9 failingDeleteEnv cleanupFailState [] demoAnalysisResult
    shortTranscription cleanupFailSaved "EACCES" rfl rfl rfl rfl
